import Mathlib

/-!
Verification of the CWS main handlers (cms/server/contest/handlers/main.py)
against the natural-language specification.

The file embeds the handlers shallowly: each HTTP handler becomes a pure
function from an explicit server state and request to a result value and an
updated state.  Machine-level collaborators that are not part of the source
file (the bcrypt and sha256 libraries, the cmscommon.crypto module, the URL
builders of ContestHandler, the actual_phase_required decorator, check_ip
and filter_ascii) are modelled; each such definition carries a doc comment
saying so.  Timestamps are modelled as natural numbers, byte strings as
Lean strings (one character per byte).
-/

set_option autoImplicit false

namespace CWS

/-! ## String helpers mirroring the Python string operations used -/

/-- Model of list prefix testing, used to embed the startswith calls. -/
def listBeginsWith : List Char → List Char → Bool
  | [], _ => true
  | _ :: _, [] => false
  | p :: ps, c :: cs => p == c && listBeginsWith ps cs

/-- Model of the Python str.startswith test. -/
def strBeginsWith (p s : String) : Bool :=
  listBeginsWith p.data s.data

/-- Model of the Python slice s[n:] on a string (drop the first n bytes). -/
def strDropN (n : Nat) (s : String) : String :=
  String.mk (s.data.drop n)

/-- Helper of splitOnSlash, accumulating the current component reversed. -/
def splitOnSlashAux : List Char → List Char → List String
  | cur, [] => [String.mk cur.reverse]
  | cur, c :: cs =>
    if c == '/' then String.mk cur.reverse :: splitOnSlashAux [] cs
    else splitOnSlashAux (c :: cur) cs

/-- Model of the Python str.split on the slash character. -/
def splitOnSlash (s : String) : List String :=
  splitOnSlashAux [] s.data

/-- Model of the Python str.strip removing slashes at both ends. -/
def stripSlashes (s : String) : String :=
  String.mk (((s.data.dropWhile (· == '/')).reverse.dropWhile (· == '/')).reverse)

/-- Join path components with slashes. -/
def joinSlash : List String → String
  | [] => ""
  | [p] => p
  | p :: ps => p ++ "/" ++ joinSlash ps

/-- Join query arguments with ampersands. -/
def joinQuery : List (String × String) → String
  | [] => ""
  | [(k, v)] => k ++ "=" ++ v
  | (k, v) :: ps => k ++ "=" ++ v ++ "&" ++ joinQuery ps

/-- Modelled from the spec: the URL builder of CommonRequestHandler is not
under src/.  The application lives at the server root; self.url joins path
components onto the root and appends the query arguments. -/
def mkUrl (parts : List String) (args : List (String × String)) : String :=
  "/" ++ joinSlash parts ++ (if args.isEmpty then "" else "?" ++ joinQuery args)

/-- Modelled from the spec: cms.server.filter_ascii is not under src/.  The
spec asks for redacted-but-traceable identifiers in audit logs; the model
keeps printable ASCII and replaces every other byte with a dot. -/
def filter_ascii (s : String) : String :=
  String.mk (s.data.map (fun c => if 32 ≤ c.toNat ∧ c.toNat ≤ 126 then c else '.'))

/-! ## Models of the cryptographic collaborators

bcrypt and hashlib are external libraries.  They are modelled as ideal,
injective primitives: a bcrypt payload is the salt, a bar, and the hashed
password, so that hashpw(pw, payload) equals payload exactly when pw is the
password the payload was produced from; sha256 is an injective tagging of
its input.  config.secret_key is modelled as a fixed server-wide string. -/

/-- Model of the server-wide secret key (config.secret_key). -/
def secret_key : String := "8e045a51e4b102ea803c06f92841a1fb"

/-- Model of an ideal keyed hash: hashlib.sha256 hexdigest, injective. -/
def sha256hex (s : String) : String := "sha256$" ++ s

/-- Salt prefix of a modelled bcrypt payload (the part before the bar). -/
def takeUntilBar : List Char → List Char
  | [] => []
  | c :: cs => if c == '|' then [] else c :: takeUntilBar cs

/-- Salt component of a modelled bcrypt payload. -/
def bcryptSaltOf (payload : String) : String :=
  String.mk (takeUntilBar payload.data)

/-- Model of bcrypt.hashpw: reads the salt out of the given payload and
hashes the password under it.  Ideal hash: the result equals the payload
exactly when the password matches the one the payload encodes. -/
def bcrypt_hashpw (pw payload : String) : String :=
  bcryptSaltOf payload ++ "|" ++ pw

/-- Model of bcrypt.gensalt: produces a fresh salt from a seed supplied by
the environment (the nondeterminism of salt generation made explicit). -/
def bcrypt_gensalt (seed : String) : String :=
  String.mk (seed.data.filter (fun c => !(c == '|')))

/-- Modelled from the spec: cmscommon.crypto.validate_password is not under
src/.  Per the spec it verifies the submitted password against the stored
record by scheme: strong-salted-hash compares the salted digest, plaintext
compares directly, legacy-keyed-hash recomputes the keyed hash with the
server-wide secret.  The stored string carries the scheme tag as a prefix,
in the same storage format the source file uses (bcrypt:, text:, bare
legacy digest).  It receives only the stored string and the submitted
password, so it cannot rewrite the stored record. -/
def validate_password (stored given : String) : Bool :=
  if strBeginsWith "bcrypt:" stored then
    let payload := strDropN 7 stored
    bcrypt_hashpw given payload == payload
  else if strBeginsWith "text:" stored then
    given == strDropN 5 stored
  else
    sha256hex (given ++ secret_key) == stored

/-- Embedding of the method LoginHandler.validate_password (main.py lines
69 to 87).  It returns the verification verdict together with the stored
password after the call, since the legacy branch rewrites the record to the
bcrypt scheme and commits.  The salt seed stands for the bcrypt.gensalt
draw.  Note that LoginHandler.post never invokes this method: the bare name
validate_password at line 138 resolves to the module-level import from
cmscommon.crypto, so this method is dead code. -/
def LoginHandler_validate_password (pw stored : String) (saltSeed : String) :
    Bool × String :=
  if strBeginsWith "bcrypt:" stored then
    let payload := strDropN 7 stored
    (bcrypt_hashpw pw payload == payload, stored)
  else if strBeginsWith "text:" stored then
    (pw == strDropN 5 stored, stored)
  else
    let pw_hashed := sha256hex (pw ++ secret_key)
    if pw_hashed != stored then
      (false, stored)
    else
      (true, "bcrypt:" ++ bcrypt_hashpw pw (bcrypt_gensalt saltSeed))

/-- Scheme classifier over the stored format: strong-salted-hash records
carry the bcrypt prefix. -/
def isStrongScheme (stored : String) : Bool :=
  strBeginsWith "bcrypt:" stored

/-- Scheme classifier over the stored format: plaintext records carry the
text prefix. -/
def isPlaintextScheme (stored : String) : Bool :=
  strBeginsWith "text:" stored

/-! ## Data model for the login handler

The state carries the contest configuration, the user table and the
participation table of this contest, keyed by username.  A participation
holds the optional contest-specific password, the optional bound ip, the
hidden flag and the starting time. -/

/-- A row of the User table: username and stored password record. -/
structure UserRec where
  username : String
  password : String
  deriving DecidableEq

/-- A row of the Participation table for this contest. -/
structure ParticipationRec where
  password : Option String
  ip : Option String
  hidden : Bool
  starting_time : Option Nat
  deriving DecidableEq

/-- Contest configuration fields read by the login handler. -/
structure ContestRec where
  name : String
  open_participation : Bool
  ip_restriction : Bool
  block_hidden_participations : Bool
  deriving DecidableEq

/-- Server state seen by the login handler: the contest, the user table and
the participation table of this contest keyed by username. -/
structure LoginState where
  contest : ContestRec
  users : List UserRec
  participations : List (String × ParticipationRec)
  deriving DecidableEq

/-- A login request: the two form fields, the optional next argument and
the remote address. -/
structure LoginRequest where
  username : String
  password : String
  next : Option String
  remote_ip : String
  deriving DecidableEq

/-- Reason code of a login outcome, distinguishable only in the log. -/
inductive LoginOutcome where
  | noSuchUser
  | notEnrolled
  | badPassword
  | ipRejected
  | hiddenRejected
  | success
  deriving DecidableEq

/-- Result of a login request: outcome tag, redirect target, the secure
cookie set on success (username, password snapshot, timestamp), the log
lines emitted, and the state after the request. -/
structure LoginResult where
  outcome : LoginOutcome
  redirect : String
  cookie : Option (String × String × Nat)
  log : List String
  state : LoginState
  deriving DecidableEq

/-- Modelled from the spec: check_ip lives in the handlers.contest module,
not under src/.  The spec says the request source address must match the
bound address of the participation; the model compares them directly. -/
def check_ip (remote bound : String) : Bool :=
  remote == bound

/-- The participation created on the fly for an open contest: no
contest-specific password, no bound ip, not hidden, clock not started. -/
def freshParticipation : ParticipationRec :=
  { password := none, ip := none, hidden := false, starting_time := none }

/-- Target of the successful redirect (main.py lines 92 to 100): the
contest root when no next argument was given, the server root when next is
the single slash, otherwise the next value stripped of outer slashes,
split on slashes and joined onto the server root by self.url. -/
def nextPageOf (contestName : String) (next : Option String) : String :=
  match next with
  | none => mkUrl [contestName] []
  | some n =>
    if n != "/" then mkUrl (splitOnSlash (stripSlashes n)) []
    else mkUrl [] []

/-- Target of every failure redirect (main.py line 101): the contest root
with login_error set, echoing the next argument when one was given. -/
def errorPageOf (contestName : String) (next : Option String) : String :=
  mkUrl [contestName]
    ([("login_error", "true")] ++
      (match next with
       | some n => [("next", n)]
       | none => []))

/-- Embedding of LoginHandler.post (main.py lines 89 to 165).  The now
argument stands for make_timestamp() at cookie creation time. -/
def loginPost (st : LoginState) (req : LoginRequest) (now : Nat) : LoginResult :=
  let error_page := errorPageOf st.contest.name req.next
  let next_page := nextPageOf st.contest.name req.next
  match st.users.find? (fun u => u.username == req.username) with
  | none =>
    { outcome := .noSuchUser, redirect := error_page, cookie := none,
      log := [], state := st }
  | some user =>
    let pLookup := st.participations.lookup req.username
    if pLookup.isNone ∧ ¬st.contest.open_participation then
      { outcome := .notEnrolled, redirect := error_page, cookie := none,
        log := [], state := st }
    else
      let participation := pLookup.getD freshParticipation
      let st1 :=
        match pLookup with
        | some _ => st
        | none =>
          { st with
            participations :=
              (req.username, freshParticipation) :: st.participations }
      let correct_password :=
        match participation.password with
        | none => user.password
        | some pw => pw
      let filtered_user := filter_ascii req.username
      let filtered_pass := filter_ascii req.password
      if ¬validate_password correct_password req.password then
        { outcome := .badPassword, redirect := error_page, cookie := none,
          log := ["Login error: user=" ++ filtered_user ++ " pass=" ++
                  filtered_pass ++ " remote_ip=" ++ req.remote_ip ++ "."],
          state := st1 }
      else if st.contest.ip_restriction ∧ participation.ip.isSome ∧
          ¬check_ip req.remote_ip (participation.ip.getD "") then
        { outcome := .ipRejected, redirect := error_page, cookie := none,
          log := ["Unexpected IP: user=" ++ filtered_user ++ " pass=" ++
                  filtered_pass ++ " remote_ip=" ++ req.remote_ip ++ "."],
          state := st1 }
      else if participation.hidden ∧ st.contest.block_hidden_participations then
        { outcome := .hiddenRejected, redirect := error_page, cookie := none,
          log := ["Hidden user login attempt: user=" ++ filtered_user ++
                  " pass=" ++ filtered_pass ++ " remote_ip=" ++
                  req.remote_ip ++ "."],
          state := st1 }
      else
        { outcome := .success, redirect := next_page,
          cookie := some (user.username, correct_password, now),
          log := ["User logged in: user=" ++ filtered_user ++
                  " remote_ip=" ++ req.remote_ip ++ "."],
          state := st1 }

/-- A sample contest used by the concrete scenarios: closed enrollment, no
ip restriction, hidden participations not blocked. -/
def sampleContest : ContestRec :=
  { name := "c", open_participation := false, ip_restriction := false,
    block_hidden_participations := false }

/-- A sample server state used by the concrete scenarios: the user alice
with the plaintext password record text:secret and an enrolled
participation without a contest-specific password. -/
def sampleState : LoginState :=
  { contest := sampleContest,
    users := [{ username := "alice", password := "text:secret" }],
    participations := [("alice", freshParticipation)] }

/-! ## The start handler -/

/-- Modelled from the spec: the actual_phase_required decorator lives in
cms.server, not under src/.  Per the spec, the phase is the not-yet-started
phase (minus one) exactly while starting_time is unset, and setting
starting_time is what moves the participation into the running phase. -/
def actual_phase (starting_time : Option Nat) : Int :=
  match starting_time with
  | none => -1
  | some _ => 0

/-- Outcome of the start handler: either the clock was started or the
request was rejected by the phase guard because it already was. -/
inductive StartOutcome where
  | started
  | alreadyStarted
  deriving DecidableEq

/-- Embedding of StartHandler.post (main.py lines 175 to 185) together
with its actual_phase_required(-1) guard: when the guard admits the
request, the handler sets starting_time to the request timestamp and
commits; otherwise the participation is untouched. -/
def startPost (p : ParticipationRec) (now : Nat) :
    StartOutcome × ParticipationRec :=
  if actual_phase p.starting_time = -1 then
    (.started, { p with starting_time := some now })
  else
    (.alreadyStarted, p)

/-! ## Data model for the notifications handler -/

/-- An announcement of the contest: timestamp, subject and text. -/
structure Announcement where
  timestamp : Nat
  subject : String
  text : String
  deriving DecidableEq

/-- A private message of the participation. -/
structure MessageRec where
  timestamp : Nat
  subject : String
  text : String
  deriving DecidableEq

/-- A question of the participation; only the reply fields are read by the
handler, and each of them may be unset. -/
structure QuestionRec where
  reply_timestamp : Option Nat
  reply_subject : Option String
  reply_text : Option String
  deriving DecidableEq

/-- Severity level of an ad-hoc notification (NOTIFICATION_ERROR and
NOTIFICATION_SUCCESS are defined in handlers.contest, not under src/). -/
inductive Severity where
  | error
  | success
  deriving DecidableEq

/-- An ad-hoc notification queued in the service, the four components of
the tuple stored by add_notification. -/
structure AdhocNotif where
  timestamp : Nat
  subject : String
  text : String
  level : Severity
  deriving DecidableEq

/-- An entry of the JSON list returned by the notifications handler. -/
inductive FeedEvent where
  | announcement (timestamp : Nat) (subject : String) (text : String)
  | message (timestamp : Nat) (subject : String) (text : String)
  | question (timestamp : Nat) (subject : Option String) (text : String)
  | notification (timestamp : Nat) (subject : String) (text : String)
      (level : Severity)
  deriving DecidableEq

/-- State seen by the notifications handler: the durable event sources,
the unread-count cookie, and the in-memory ad-hoc notification map of the
service, keyed by username.  The map models a Python dict, so its keys are
unique; deletion removes every binding of the key. -/
structure NotifState where
  announcements : List Announcement
  messages : List MessageRec
  questions : List QuestionRec
  unread_cookie : Option Nat
  notifications : List (String × List AdhocNotif)
  deriving DecidableEq

/-- Deletion of a key from the modelled dict. -/
def eraseKey (k : String) (m : List (String × List AdhocNotif)) :
    List (String × List AdhocNotif) :=
  m.filter (fun kv => kv.1 ≠ k)

/-- The feed entry built from an announcement. -/
def annEvent (a : Announcement) : FeedEvent :=
  .announcement a.timestamp a.subject a.text

/-- The feed entry built from a message. -/
def msgEvent (m : MessageRec) : FeedEvent :=
  .message m.timestamp m.subject m.text

/-- The feed entry built from a replied question with the normalization of
partial replies: if the reply subject is unset the reply text becomes the
subject and the body is empty; if only the reply text is unset the body is
empty. -/
def questionEvent (q : QuestionRec) (rt : Nat) : FeedEvent :=
  match q.reply_subject, q.reply_text with
  | none, t => .question rt t ""
  | some s, none => .question rt (some s) ""
  | some s, some t => .question rt (some s) t

/-- The feed entry built from an ad-hoc notification. -/
def notifEvent (n : AdhocNotif) : FeedEvent :=
  .notification n.timestamp n.subject n.text n.level

/-- The announcement loop of the handler (main.py lines 219 to 231):
append an entry for every announcement in the open interval. -/
def annLoop (last now : Nat) (res : List FeedEvent) :
    List Announcement → List FeedEvent
  | [] => res
  | a :: rest =>
    annLoop last now
      (if last < a.timestamp ∧ a.timestamp < now then res ++ [annEvent a]
       else res) rest

/-- The private message loop of the handler (main.py lines 234 to 242). -/
def msgLoop (last now : Nat) (res : List FeedEvent) :
    List MessageRec → List FeedEvent
  | [] => res
  | m :: rest =>
    msgLoop last now
      (if last < m.timestamp ∧ m.timestamp < now then res ++ [msgEvent m]
       else res) rest

/-- The question loop of the handler (main.py lines 245 to 265): questions
without a reply timestamp are skipped. -/
def qLoop (last now : Nat) (res : List FeedEvent) :
    List QuestionRec → List FeedEvent
  | [] => res
  | q :: rest =>
    qLoop last now
      (match q.reply_timestamp with
       | none => res
       | some rt =>
         if last < rt ∧ rt < now then res ++ [questionEvent q rt]
         else res) rest

/-- Embedding of NotificationsHandler.get (main.py lines 206 to 289).  The
lastArg argument is the optional last_notification request argument (the
handler defaults it to zero); now is self.timestamp; u is the username of
the authenticated participation.  Returns the JSON list and the state
after the request (unread cookie written, ad-hoc queue drained). -/
def fetch (st : NotifState) (u : String) (lastArg : Option Nat) (now : Nat) :
    List FeedEvent × NotifState :=
  let last := lastArg.getD 0
  let res1 := annLoop last now [] st.announcements
  let res2 := msgLoop last now res1 st.messages
  let res3 := qLoop last now res2 st.questions
  let next_unread := res3.length + st.unread_cookie.getD 0
  let st1 := { st with unread_cookie := some next_unread }
  match st1.notifications.lookup u with
  | some items =>
    (res3 ++ items.map notifEvent,
     { st1 with notifications := eraseKey u st1.notifications })
  | none => (res3, st1)

/-! ## Data model for the printing handler -/

/-- An uploaded file of the multipart request: filename and body.  The
body is a byte string, modelled one character per byte. -/
structure PrintFile where
  filename : String
  body : String
  deriving DecidableEq

/-- A PrintJob row for the authenticated participation. -/
structure PrintJobRec where
  timestamp : Nat
  filename : String
  digest : String
  deriving DecidableEq

/-- A message pushed to the ad-hoc notification sink by add_notification,
in argument order. -/
structure SinkMsg where
  username : String
  timestamp : Nat
  subject : String
  text : String
  level : Severity
  deriving DecidableEq

/-- Configuration read by the printing handler. -/
structure PrintConfig where
  max_jobs_per_user : Nat
  max_print_length : Nat
  deriving DecidableEq

/-- State touched by the printing handler: the PrintJob rows of the
authenticated participation, the content store (digest, content, label
triples), the ad-hoc notification sink and the print queue of enqueued job
identifiers. -/
structure PrintState where
  printjobs : List PrintJobRec
  fileStore : List (String × String × String)
  sink : List SinkMsg
  queue : List Nat
  deriving DecidableEq

/-- Outcome of a print submission. -/
inductive SubmitOutcome where
  | httpError404
  | quotaExceeded
  | invalidFormat
  | tooLarge
  | storageFailed
  | success
  deriving DecidableEq

/-- Model of the content-addressable digest returned by
FileCacher.put_file_content for a given content. -/
def digestOf (data : String) : String :=
  "sha1$" ++ data

/-- The multipart shape check of the handler (main.py lines 347 to 349):
every field must carry exactly one file and the key set must be exactly
the file field.  The request files are a dict, so keys are unique and set
equality with the singleton means every key is the file field and there is
at least one. -/
def filesShapeBad (files : List (String × List PrintFile)) : Bool :=
  files.any (fun kv => kv.2.length != 1) ||
    !(!files.isEmpty && files.all (fun kv => kv.1 == "file"))

/-- Embedding of PrintingHandler.post (main.py lines 320 to 404).  The
enabled flag is the printing_enabled parameter of the feature gate; u the
username of the authenticated participation; storeOk models whether the
content store write raises.  Returns the outcome and the state after the
request. -/
def submit (enabled : Bool) (cfg : PrintConfig) (st : PrintState)
    (u : String) (files : List (String × List PrintFile)) (now : Nat)
    (storeOk : Bool) : SubmitOutcome × PrintState :=
  if !enabled then
    (.httpError404, st)
  else if cfg.max_jobs_per_user ≤ st.printjobs.length then
    (.quotaExceeded,
     { st with sink := st.sink ++
        [{ username := u, timestamp := now,
           subject := "Too many print jobs!",
           text := "You have reached the maximum limit of at most " ++
             toString cfg.max_jobs_per_user ++ " print jobs.",
           level := .error }] })
  else if filesShapeBad files then
    (.invalidFormat,
     { st with sink := st.sink ++
        [{ username := u, timestamp := now,
           subject := "Invalid format!",
           text := "Please select the correct files.",
           level := .error }] })
  else
    match (files.lookup "file").getD [] with
    | [] =>
      -- Unreachable: the shape check guarantees the file field is present
      -- with exactly one file.
      (.invalidFormat, st)
    | f :: _ =>
      let data := f.body
      if cfg.max_print_length < data.length then
        (.tooLarge,
         { st with sink := st.sink ++
            [{ username := u, timestamp := now,
               subject := "File too big!",
               text := "Each file must be at most " ++
                 toString cfg.max_print_length ++ " bytes long.",
               level := .error }] })
      else if !storeOk then
        (.storageFailed,
         { st with sink := st.sink ++
            [{ username := u, timestamp := now,
               subject := "Print job storage failed!",
               text := "Please try again.",
               level := .error }] })
      else
        let digest := digestOf data
        let label := "Print job sent by " ++ u ++ " at " ++ toString now ++ "."
        let printjob : PrintJobRec :=
          { timestamp := now, filename := f.filename, digest := digest }
        (.success,
         { printjobs := st.printjobs ++ [printjob],
           fileStore := st.fileStore ++ [(digest, data, label)],
           sink := st.sink ++
            [{ username := u, timestamp := now,
               subject := "Print job received",
               text := "Your print job has been received.",
               level := .success }],
           queue := st.queue ++ [st.printjobs.length] })

/-! ## Specification-side characterizations of the notification feed

These definitions restate the selection the spec describes, as filters over
the event sources with strict bounds at both ends; the theorems below
prove the handler loops equal to them. -/

/-- Announcements selected by a fetch, per the spec: those with timestamp
strictly between the last seen timestamp and the server time. -/
def annSelected (anns : List Announcement) (last now : Nat) : List FeedEvent :=
  (anns.filter (fun a => decide (last < a.timestamp ∧ a.timestamp < now))).map
    annEvent

/-- Messages selected by a fetch, per the spec. -/
def msgSelected (msgs : List MessageRec) (last now : Nat) : List FeedEvent :=
  (msgs.filter (fun m => decide (last < m.timestamp ∧ m.timestamp < now))).map
    msgEvent

/-- Selection of a single question, per the spec: questions are keyed on
the reply timestamp and skipped when it is unset. -/
def qSelect (last now : Nat) (q : QuestionRec) : Option FeedEvent :=
  match q.reply_timestamp with
  | none => none
  | some rt =>
    if last < rt ∧ rt < now then some (questionEvent q rt) else none

/-- Question replies selected by a fetch, per the spec. -/
def qSelected (qs : List QuestionRec) (last now : Nat) : List FeedEvent :=
  qs.filterMap (qSelect last now)

/-- Number of durable events a fetch selects. -/
def durableCount (st : NotifState) (last now : Nat) : Nat :=
  (annSelected st.announcements last now).length +
    (msgSelected st.messages last now).length +
    (qSelected st.questions last now).length

/-- Ad-hoc portion a fetch appends for a username: all notifications
queued under it, empty when none are. -/
def adhocOf (st : NotifState) (u : String) : List FeedEvent :=
  ((st.notifications.lookup u).getD []).map notifEvent

/-- Recognizer of the ad-hoc entries of a feed. -/
def isAdhoc : FeedEvent → Bool
  | .notification _ _ _ _ => true
  | _ => false

/-! ## Helper lemmas -/

theorem annLoop_eq (last now : Nat) (l : List Announcement) :
    ∀ res : List FeedEvent,
      annLoop last now res l = res ++ annSelected l last now := by
  induction l with
  | nil => intro res; simp [annLoop, annSelected]
  | cons a rest ih =>
    intro res
    by_cases h : last < a.timestamp ∧ a.timestamp < now
    · simp [annLoop, annSelected, List.filter_cons, h, ih]
    · simp [annLoop, annSelected, List.filter_cons, h, ih]

theorem msgLoop_eq (last now : Nat) (l : List MessageRec) :
    ∀ res : List FeedEvent,
      msgLoop last now res l = res ++ msgSelected l last now := by
  induction l with
  | nil => intro res; simp [msgLoop, msgSelected]
  | cons m rest ih =>
    intro res
    by_cases h : last < m.timestamp ∧ m.timestamp < now
    · simp [msgLoop, msgSelected, List.filter_cons, h, ih]
    · simp [msgLoop, msgSelected, List.filter_cons, h, ih]

theorem qLoop_eq (last now : Nat) (l : List QuestionRec) :
    ∀ res : List FeedEvent,
      qLoop last now res l = res ++ qSelected l last now := by
  induction l with
  | nil => intro res; simp [qLoop, qSelected]
  | cons q rest ih =>
    intro res
    cases hrt : q.reply_timestamp with
    | none => simp [qLoop, qSelected, List.filterMap_cons, qSelect, hrt, ih]
    | some rt =>
      by_cases h : last < rt ∧ rt < now
      · simp [qLoop, qSelected, List.filterMap_cons, qSelect, hrt, h, ih]
      · simp [qLoop, qSelected, List.filterMap_cons, qSelect, hrt, h, ih]

theorem lookup_eraseKey (k : String) (m : List (String × List AdhocNotif)) :
    (eraseKey k m).lookup k = none := by
  induction m with
  | nil => rfl
  | cons kv rest ih =>
    by_cases h : kv.1 = k
    · simpa [eraseKey, List.filter_cons, h] using ih
    · have hk : (k == kv.1) = false :=
        beq_eq_false_iff_ne.mpr (fun he => h he.symm)
      simp only [eraseKey, List.filter_cons] at ih ⊢
      rw [if_pos (by simpa using h)]
      rw [show List.lookup k (kv :: rest.filter (fun kv => decide (kv.1 ≠ k)))
            = List.lookup k (rest.filter (fun kv => decide (kv.1 ≠ k))) by
          simp [List.lookup, hk]]
      exact ih

theorem isAdhoc_questionEvent (q : QuestionRec) (rt : Nat) :
    isAdhoc (questionEvent q rt) = false := by
  unfold questionEvent
  cases q.reply_subject <;> cases q.reply_text <;> rfl

theorem filter_isAdhoc_map {α : Type} (f : α → FeedEvent)
    (hf : ∀ x, isAdhoc (f x) = false) (l : List α) :
    (l.map f).filter isAdhoc = [] := by
  induction l with
  | nil => rfl
  | cons a rest ih => simp [List.filter_cons, hf, ih]

theorem filter_isAdhoc_qSelected (qs : List QuestionRec) (last now : Nat) :
    (qSelected qs last now).filter isAdhoc = [] := by
  induction qs with
  | nil => rfl
  | cons q rest ih =>
    cases hrt : q.reply_timestamp with
    | none => simpa [qSelected, List.filterMap_cons, qSelect, hrt] using ih
    | some rt =>
      by_cases h : last < rt ∧ rt < now
      · simpa [qSelected, List.filterMap_cons, qSelect, hrt, h,
          List.filter_cons, isAdhoc_questionEvent] using ih
      · simpa [qSelected, List.filterMap_cons, qSelect, hrt, h] using ih

theorem fetch_events_eq (st : NotifState) (u : String) (lastArg : Option Nat)
    (now : Nat) :
    (fetch st u lastArg now).1 =
      annSelected st.announcements (lastArg.getD 0) now ++
        msgSelected st.messages (lastArg.getD 0) now ++
        qSelected st.questions (lastArg.getD 0) now ++ adhocOf st u := by
  unfold fetch
  cases hl : st.notifications.lookup u with
  | some items =>
    simp [annLoop_eq, msgLoop_eq, qLoop_eq, adhocOf, hl]
  | none =>
    simp [annLoop_eq, msgLoop_eq, qLoop_eq, adhocOf, hl]

theorem fetch_unread_eq (st : NotifState) (u : String) (lastArg : Option Nat)
    (now : Nat) :
    ((fetch st u lastArg now).2).unread_cookie =
      some (durableCount st (lastArg.getD 0) now + st.unread_cookie.getD 0) := by
  unfold fetch durableCount
  cases hl : st.notifications.lookup u with
  | some items =>
    simp [annLoop_eq, msgLoop_eq, qLoop_eq, hl]
    omega
  | none =>
    simp [annLoop_eq, msgLoop_eq, qLoop_eq, hl]
    omega

theorem fetch_lookup_none (st : NotifState) (u : String) (lastArg : Option Nat)
    (now : Nat) :
    ((fetch st u lastArg now).2).notifications.lookup u = none := by
  unfold fetch
  cases hl : st.notifications.lookup u with
  | some items => simp [hl, lookup_eraseKey]
  | none => simp [hl]

theorem filter_isAdhoc_annSelected (anns : List Announcement) (last now : Nat) :
    (annSelected anns last now).filter isAdhoc = [] :=
  filter_isAdhoc_map annEvent (fun _ => rfl) _

theorem filter_isAdhoc_msgSelected (msgs : List MessageRec) (last now : Nat) :
    (msgSelected msgs last now).filter isAdhoc = [] :=
  filter_isAdhoc_map msgEvent (fun _ => rfl) _

/-! ## Claim theorems: the notification aggregator -/

/-- C4: for every fetch, the persisted unread counter becomes the previous
unread total plus the number of durable events selected by that call, and
the counter does not depend on the ad-hoc notification queue, so ad-hoc
notifications never increment it. -/
theorem c4_unread_counter_durable_only (st : NotifState) (u : String)
    (lastArg : Option Nat) (now : Nat) :
    ((fetch st u lastArg now).2).unread_cookie =
      some (durableCount st (lastArg.getD 0) now + st.unread_cookie.getD 0) ∧
    ∀ m : List (String × List AdhocNotif),
      ((fetch { st with notifications := m } u lastArg now).2).unread_cookie =
        ((fetch st u lastArg now).2).unread_cookie := by
  refine ⟨fetch_unread_eq st u lastArg now, fun m => ?_⟩
  rw [fetch_unread_eq, fetch_unread_eq]
  simp [durableCount]

/-- C5: ad-hoc notifications are delivered at most once: after one fetch,
the queue entry of the username is gone, and a repeated fetch with
identical arguments returns an empty ad-hoc portion. -/
theorem c5_adhoc_at_most_once (st : NotifState) (u : String)
    (lastArg : Option Nat) (now : Nat) :
    ((fetch ((fetch st u lastArg now).2) u lastArg now).1).filter isAdhoc
        = [] ∧
    ((fetch st u lastArg now).2).notifications.lookup u = none := by
  refine ⟨?_, fetch_lookup_none st u lastArg now⟩
  rw [fetch_events_eq]
  simp [List.filter_append, adhocOf, fetch_lookup_none,
    filter_isAdhoc_annSelected, filter_isAdhoc_msgSelected,
    filter_isAdhoc_qSelected]

/-- C8: a fetch returns exactly the durable events with timestamp in the
open interval between the last seen timestamp and the server time, strict
at both ends, question replies keyed on the reply timestamp and skipped
when it is unset, listed grouped by type in the order announcements,
messages, question replies, followed by the drained ad-hoc
notifications. -/
theorem c8_feed_selection (st : NotifState) (u : String) (last now : Nat) :
    (fetch st u (some last) now).1 =
      annSelected st.announcements last now ++
        msgSelected st.messages last now ++
        qSelected st.questions last now ++ adhocOf st u := by
  simpa using fetch_events_eq st u (some last) now

/-- C10 (amended): when the last_notification argument is absent it
defaults to zero, so the fetch behaves exactly as one with last seen
timestamp zero: it returns every durable event with timestamp strictly
between zero and the server time, and increments the unread counter by
that count. -/
theorem c10_default_last_notification (st : NotifState) (u : String)
    (now : Nat) :
    fetch st u none now = fetch st u (some 0) now ∧
    (fetch st u none now).1 =
      annSelected st.announcements 0 now ++ msgSelected st.messages 0 now ++
        qSelected st.questions 0 now ++ adhocOf st u ∧
    ((fetch st u none now).2).unread_cookie =
      some (durableCount st 0 now + st.unread_cookie.getD 0) := by
  refine ⟨rfl, ?_, ?_⟩
  · simpa using fetch_events_eq st u none now
  · simpa using fetch_unread_eq st u none now

/-- C10 (counterexample): with no last_notification argument, an
announcement whose timestamp is exactly zero, although strictly before the
server time five, is not returned, because the defaulted lower bound is
strict; so the fetch does not return every durable event with timestamp
strictly before the server time. -/
theorem c10_epoch_event_excluded :
    (fetch { announcements := [{ timestamp := 0, subject := "s", text := "t" }],
             messages := [], questions := [], unread_cookie := none,
             notifications := [] } "alice" none 5).1 = [] ∧
    (0 : Nat) < 5 ∧
    ((fetch { announcements := [{ timestamp := 0, subject := "s", text := "t" }],
              messages := [], questions := [], unread_cookie := none,
              notifications := [] } "alice" none 5).2).unread_cookie
      = some 0 := by
  refine ⟨rfl, by decide, rfl⟩

/-! ## Claim theorems: the start handler -/

/-- C2: the starting time is write-once: the start handler sets it only
when it is unset; when it is already set the request is rejected by the
phase guard as a no-op error and the participation is unchanged, so a
repeated call never changes the starting time. -/
theorem c2_start_clock_write_once (p : ParticipationRec) (now : Nat) :
    (p.starting_time = none →
      startPost p now = (.started, { p with starting_time := some now })) ∧
    (∀ t, p.starting_time = some t →
      startPost p now = (.alreadyStarted, p)) ∧
    (∀ now2, ((startPost ((startPost p now).2) now2).2).starting_time =
      ((startPost p now).2).starting_time) := by
  refine ⟨fun h => ?_, fun t h => ?_, fun now2 => ?_⟩
  · simp [startPost, actual_phase, h]
  · simp [startPost, actual_phase, h]
  · cases h : p.starting_time with
    | none => simp [startPost, actual_phase, h]
    | some t => simp [startPost, actual_phase, h]

/-- Witness for C2: a participation with the clock unset gets it set to
the request time; a second request is rejected and leaves it unchanged. -/
theorem c2_start_clock_write_once_witness :
    startPost { password := none, ip := none, hidden := false,
                starting_time := none } 5 =
      (.started, { password := none, ip := none, hidden := false,
                   starting_time := some 5 }) ∧
    startPost { password := none, ip := none, hidden := false,
                starting_time := some 5 } 9 =
      (.alreadyStarted, { password := none, ip := none, hidden := false,
                          starting_time := some 5 }) :=
  ⟨(c2_start_clock_write_once _ 5).1 rfl,
   (c2_start_clock_write_once _ 9).2.1 5 rfl⟩

/-! ## Claim theorems: the printing handler -/

/-- C3: the submit checks run in the fixed order feature gate, quota,
upload shape, size, store; the first failing check short-circuits, and for
every failure before the store step no content store write occurs and no
print job row is created.  Each conjunct assumes only the checks before it
passed, so an earlier failing check wins regardless of the later ones. -/
theorem c3_submit_check_order (enabled : Bool) (cfg : PrintConfig)
    (st : PrintState) (u : String) (files : List (String × List PrintFile))
    (now : Nat) (storeOk : Bool) :
    (enabled = false →
      submit enabled cfg st u files now storeOk = (.httpError404, st)) ∧
    (enabled = true → cfg.max_jobs_per_user ≤ st.printjobs.length →
      (submit enabled cfg st u files now storeOk).1 = .quotaExceeded ∧
      (submit enabled cfg st u files now storeOk).2.fileStore = st.fileStore ∧
      (submit enabled cfg st u files now storeOk).2.printjobs
        = st.printjobs) ∧
    (enabled = true → st.printjobs.length < cfg.max_jobs_per_user →
      filesShapeBad files = true →
      (submit enabled cfg st u files now storeOk).1 = .invalidFormat ∧
      (submit enabled cfg st u files now storeOk).2.fileStore = st.fileStore ∧
      (submit enabled cfg st u files now storeOk).2.printjobs
        = st.printjobs) ∧
    (enabled = true → st.printjobs.length < cfg.max_jobs_per_user →
      filesShapeBad files = false →
      ∀ f, files.lookup "file" = some [f] →
        cfg.max_print_length < f.body.length →
        (submit enabled cfg st u files now storeOk).1 = .tooLarge ∧
        (submit enabled cfg st u files now storeOk).2.fileStore
          = st.fileStore ∧
        (submit enabled cfg st u files now storeOk).2.printjobs
          = st.printjobs) := by
  refine ⟨fun h1 => ?_, fun h1 h2 => ?_, fun h1 h2 h3 => ?_,
    fun h1 h2 h3 f h4 h5 => ?_⟩
  · simp [submit, h1]
  · simp [submit, h1, h2]
  · simp [submit, h1, Nat.not_le.mpr h2, h3]
  · simp [submit, h1, Nat.not_le.mpr h2, h3, h4, h5]

/-- Witness for C3: concrete runs reaching each of the four rejection
branches, with the state visibly untouched in the print job and content
store components. -/
theorem c3_submit_check_order_witness :
    submit false { max_jobs_per_user := 1, max_print_length := 10 }
        { printjobs := [], fileStore := [], sink := [], queue := [] }
        "alice" [] 3 true =
      (.httpError404,
       { printjobs := [], fileStore := [], sink := [], queue := [] }) ∧
    (submit true { max_jobs_per_user := 1, max_print_length := 10 }
        { printjobs := [{ timestamp := 1, filename := "a", digest := "d" }],
          fileStore := [], sink := [], queue := [] }
        "alice" [("file", [{ filename := "b", body := "x" }])] 3 true).1
      = .quotaExceeded ∧
    (submit true { max_jobs_per_user := 1, max_print_length := 10 }
        { printjobs := [], fileStore := [], sink := [], queue := [] }
        "alice" [] 3 true).1 = .invalidFormat ∧
    (submit true { max_jobs_per_user := 1, max_print_length := 10 }
        { printjobs := [], fileStore := [], sink := [], queue := [] }
        "alice" [("file", [{ filename := "b", body := "hello-world" }])]
        3 true).1 = .tooLarge := by
  refine ⟨?_, ?_, ?_, ?_⟩
  · exact (c3_submit_check_order false
      { max_jobs_per_user := 1, max_print_length := 10 }
      { printjobs := [], fileStore := [], sink := [], queue := [] }
      "alice" [] 3 true).1 rfl
  · exact ((c3_submit_check_order true
      { max_jobs_per_user := 1, max_print_length := 10 }
      { printjobs := [{ timestamp := 1, filename := "a", digest := "d" }],
        fileStore := [], sink := [], queue := [] }
      "alice" [("file", [{ filename := "b", body := "x" }])] 3 true).2.1
      rfl (by decide)).1
  · exact ((c3_submit_check_order true
      { max_jobs_per_user := 1, max_print_length := 10 }
      { printjobs := [], fileStore := [], sink := [], queue := [] }
      "alice" [] 3 true).2.2.1 rfl (by decide) rfl).1
  · exact ((c3_submit_check_order true
      { max_jobs_per_user := 1, max_print_length := 10 }
      { printjobs := [], fileStore := [], sink := [], queue := [] }
      "alice" [("file", [{ filename := "b", body := "hello-world" }])]
      3 true).2.2.2 rfl (by decide) (by decide)
      { filename := "b", body := "hello-world" } (by decide) (by decide)).1

/-- C9: with the earlier checks passed, an upload whose byte length
exceeds the configured maximum is rejected as too large with no content
store write, and an upload whose byte length is at most the maximum, the
boundary included, proceeds to the content store write. -/
theorem c9_size_boundary (cfg : PrintConfig) (st : PrintState) (u : String)
    (f : PrintFile) (now : Nat) (storeOk : Bool)
    (hq : st.printjobs.length < cfg.max_jobs_per_user) :
    (cfg.max_print_length < f.body.length →
      (submit true cfg st u [("file", [f])] now storeOk).1 = .tooLarge ∧
      (submit true cfg st u [("file", [f])] now storeOk).2.fileStore
        = st.fileStore) ∧
    (f.body.length ≤ cfg.max_print_length → storeOk = true →
      (submit true cfg st u [("file", [f])] now true).1 = .success ∧
      (submit true cfg st u [("file", [f])] now true).2.fileStore
        = st.fileStore ++
          [(digestOf f.body, f.body,
            "Print job sent by " ++ u ++ " at " ++ toString now ++ ".")]) := by
  refine ⟨fun h => ?_, fun h hs => ?_⟩
  · simp [submit, Nat.not_le.mpr hq, filesShapeBad, List.lookup, h]
  · simp [submit, Nat.not_le.mpr hq, filesShapeBad, List.lookup,
      Nat.not_lt.mpr h, digestOf]

/-- Witness for C9: with a maximum print length of one thousand, a
one-thousand-byte upload is accepted and a thousand-and-one-byte upload is
rejected as too large. -/
theorem c9_size_boundary_witness :
    (submit true { max_jobs_per_user := 5, max_print_length := 1000 }
        { printjobs := [], fileStore := [], sink := [], queue := [] }
        "alice"
        [("file", [{ filename := "f.txt",
                     body := String.mk (List.replicate 1000 'a') }])]
        3 true).1 = .success ∧
    (submit true { max_jobs_per_user := 5, max_print_length := 1000 }
        { printjobs := [], fileStore := [], sink := [], queue := [] }
        "alice"
        [("file", [{ filename := "f.txt",
                     body := String.mk (List.replicate 1001 'a') }])]
        3 true).1 = .tooLarge := by
  refine ⟨?_, ?_⟩
  · exact ((c9_size_boundary
      { max_jobs_per_user := 5, max_print_length := 1000 }
      { printjobs := [], fileStore := [], sink := [], queue := [] }
      "alice"
      { filename := "f.txt", body := String.mk (List.replicate 1000 'a') }
      3 true (by decide)).2
      (by show (List.replicate 1000 'a').length ≤ 1000
          rw [List.length_replicate]) rfl).1
  · exact ((c9_size_boundary
      { max_jobs_per_user := 5, max_print_length := 1000 }
      { printjobs := [], fileStore := [], sink := [], queue := [] }
      "alice"
      { filename := "f.txt", body := String.mk (List.replicate 1001 'a') }
      3 true (by decide)).1
      (by show 1000 < (List.replicate 1001 'a').length
          rw [List.length_replicate]
          decide)).1

/-! ## Claim theorems: the login handler -/

/-- Case analysis of the login handler response: a successful request
redirects to the resolved next page; every failing request redirects to
the generic error page and sets no cookie. -/
theorem loginPost_cases (st : LoginState) (req : LoginRequest) (now : Nat) :
    ((loginPost st req now).outcome = .success ∧
      (loginPost st req now).redirect = nextPageOf st.contest.name req.next) ∨
    ((loginPost st req now).outcome ≠ .success ∧
      (loginPost st req now).redirect = errorPageOf st.contest.name req.next ∧
      (loginPost st req now).cookie = none) := by
  unfold loginPost
  split
  · right; exact ⟨by simp, rfl, rfl⟩
  · try dsimp only
    split
    · right; exact ⟨by simp, rfl, rfl⟩
    · try dsimp only
      split
      · right; exact ⟨by simp, rfl, rfl⟩
      · split
        · right; exact ⟨by simp, rfl, rfl⟩
        · split
          · right; exact ⟨by simp, rfl, rfl⟩
          · left; exact ⟨rfl, rfl⟩

/-- C7: every failing login, whatever the reason, produces the same opaque
redirect to the generic error page, which depends only on the contest name
and the echoed next argument, never on why or at which state the login
failed; no cookie is set. -/
theorem c7_failure_responses_identical (st : LoginState) (req : LoginRequest)
    (now : Nat) (h : (loginPost st req now).outcome ≠ .success) :
    (loginPost st req now).redirect = errorPageOf st.contest.name req.next ∧
    (loginPost st req now).cookie = none := by
  rcases loginPost_cases st req now with ⟨hs, _⟩ | ⟨_, hr, hc⟩
  · exact absurd hs h
  · exact ⟨hr, hc⟩

/-- Witness for C7: a run with an unknown username and a run with an
existing username but a wrong password produce the identical response,
the reason differing only in the outcome tag left for the log. -/
theorem c7_failure_responses_identical_witness :
    (loginPost sampleState
      { username := "bob", password := "secret", next := none,
        remote_ip := "1.2.3.4" } 3).redirect = errorPageOf "c" none ∧
    (loginPost sampleState
      { username := "alice", password := "wrong", next := none,
        remote_ip := "1.2.3.4" } 3).redirect = errorPageOf "c" none ∧
    (loginPost sampleState
      { username := "bob", password := "secret", next := none,
        remote_ip := "1.2.3.4" } 3).redirect =
      (loginPost sampleState
        { username := "alice", password := "wrong", next := none,
          remote_ip := "1.2.3.4" } 3).redirect ∧
    (loginPost sampleState
      { username := "bob", password := "secret", next := none,
        remote_ip := "1.2.3.4" } 3).outcome = .noSuchUser ∧
    (loginPost sampleState
      { username := "alice", password := "wrong", next := none,
        remote_ip := "1.2.3.4" } 3).outcome = .badPassword := by
  have h1 := (c7_failure_responses_identical sampleState
    { username := "bob", password := "secret", next := none,
      remote_ip := "1.2.3.4" } 3 (by decide)).1
  have h2 := (c7_failure_responses_identical sampleState
    { username := "alice", password := "wrong", next := none,
      remote_ip := "1.2.3.4" } 3 (by decide)).1
  exact ⟨h1, h2, h1.trans h2.symm, by decide, by decide⟩

/-- C6 (amended): when no next argument is supplied a successful login
redirects to the contest root; when next is the single slash it redirects
to the server root; any other next value is stripped of outer slashes,
split on slashes and resolved from the server root, not under the contest
namespace, and no next value is rejected. -/
theorem c6_next_resolution (st : LoginState) (req : LoginRequest) (now : Nat)
    (h : (loginPost st req now).outcome = .success) :
    (req.next = none →
      (loginPost st req now).redirect = mkUrl [st.contest.name] []) ∧
    (req.next = some "/" → (loginPost st req now).redirect = "/") ∧
    (∀ n, req.next = some n → n ≠ "/" →
      (loginPost st req now).redirect =
        mkUrl (splitOnSlash (stripSlashes n)) []) := by
  have hr : (loginPost st req now).redirect =
      nextPageOf st.contest.name req.next := by
    rcases loginPost_cases st req now with ⟨_, hr⟩ | ⟨hn, _, _⟩
    · exact hr
    · exact absurd h hn
  refine ⟨fun hn => ?_, fun hn => ?_, fun n hn hne => ?_⟩
  · rw [hr, hn]; rfl
  · rw [hr, hn]; rfl
  · rw [hr, hn]
    unfold nextPageOf
    dsimp only
    rw [if_pos (bne_iff_ne.mpr hne)]

/-- Witness for C6 (amended): a successful login of alice with the next
argument foo/bar is redirected to the root-resolved path. -/
theorem c6_next_resolution_witness :
    (loginPost sampleState
      { username := "alice", password := "secret", next := some "foo/bar",
        remote_ip := "1.2.3.4" } 7).redirect = "/foo/bar" := by
  have h := ((c6_next_resolution sampleState
    { username := "alice", password := "secret", next := some "foo/bar",
      remote_ip := "1.2.3.4" } 7 (by decide)).2.2 "foo/bar" rfl (by decide))
  exact h.trans (by decide)

/-- C6 (counterexample): the claim says a relative next path is resolved
under the contest namespace and cross-namespace paths are rejected; but a
successful login of alice in the contest named c with next other/page is
redirected to the server-root path other/page, which does not lie under
the contest namespace and was not rejected. -/
theorem c6_cross_namespace_redirect :
    (loginPost sampleState
      { username := "alice", password := "secret", next := some "other/page",
        remote_ip := "1.2.3.4" } 7).outcome = .success ∧
    (loginPost sampleState
      { username := "alice", password := "secret", next := some "other/page",
        remote_ip := "1.2.3.4" } 7).redirect = "/other/page" ∧
    strBeginsWith "/c/"
      ((loginPost sampleState
        { username := "alice", password := "secret", next := some "other/page",
          remote_ip := "1.2.3.4" } 7).redirect) = false := by
  refine ⟨by decide, by decide, by decide⟩

/-- C1: the claim says a successful login under a weaker scheme rewrites
the stored record to the strong scheme; but the login path leaves the
whole credential state untouched: alice with the plaintext record logs in
successfully, the stored record afterwards is the unchanged plaintext
record, not a strong-salted-hash one, and a second login still succeeds
against the old plaintext record.  The in-class upgrade method is never
reached from the login path (the call at line 138 resolves to the imported
pure function), and even it would upgrade only legacy records. -/
theorem c1_login_never_upgrades_scheme :
    (loginPost sampleState
      { username := "alice", password := "secret", next := none,
        remote_ip := "1.2.3.4" } 100).outcome = .success ∧
    (loginPost sampleState
      { username := "alice", password := "secret", next := none,
        remote_ip := "1.2.3.4" } 100).state = sampleState ∧
    ((sampleState.users.headD { username := "", password := "" }).password
      = "text:secret") ∧
    isPlaintextScheme "text:secret" = true ∧
    isStrongScheme "text:secret" = false ∧
    (loginPost
      (loginPost sampleState
        { username := "alice", password := "secret", next := none,
          remote_ip := "1.2.3.4" } 100).state
      { username := "alice", password := "secret", next := none,
        remote_ip := "1.2.3.4" } 200).outcome = .success ∧
    (LoginHandler_validate_password "secret" "text:secret" "s2a").2
      = "text:secret" := by
  refine ⟨by decide, by decide, rfl, rfl, rfl, by decide, by decide⟩

end CWS
